import Mathlib

/-!
Shallow embedding of the core workflows of the `aws-strands-mcp-workshp`
repository and proofs about them.

Strings are modelled as `List Char` (`Str`), so that every operation the
Python source performs on text (substring tests, slicing, stripping,
lower-casing, regex scanning) is an executable Lean function that the kernel
can evaluate on concrete inputs.

The external collaborators (HTTP endpoints, the DeepSeek text-understanding
service, `json.loads`) are passed in as explicit parameters: an attempt
oracle `Nat → _` gives the outcome of the n-th `requests.get` call, an
`Option Str` gives the text-understanding response (`none` models the API
helper returning `None` on failure), and a `parse` function models
`json.loads` (returning `none` exactly when `json.loads` would raise
`json.JSONDecodeError`).  Python runtime errors that the embedded code can
raise (`NameError` for unbound names, re-raised `requests` exceptions) are
modelled by the `PyError` type and `Except`.
-/

/-- Strings are modelled as lists of characters. -/
abbrev Str := List Char

/-- Model of the regex character class `\s` (whitespace), as used by the
order-id patterns in `data_preprocess/src/server.py`. -/
def isSpc (c : Char) : Bool := c = ' ' || c = '\t' || c = '\n' || c = '\r'

/-- Model of the regex character class `[A-Za-z0-9]` (ASCII letters and
digits). -/
def isAlnum (c : Char) : Bool := c.isAlpha || c.isDigit

/-- Substring test: `isSubstrOf needle hay` models Python's
`needle in hay` on strings. -/
def isSubstrOf (needle : Str) : Str → Bool
  | [] => needle.isEmpty
  | c :: rest => needle.isPrefixOf (c :: rest) || isSubstrOf needle rest

/-- `isSubstrOf` decides the `List.IsInfix` relation. -/
theorem isSubstrOf_iff (n h : Str) : isSubstrOf n h = true ↔ n <:+: h := by
  induction h with
  | nil =>
    simp [isSubstrOf]
  | cons c rest ih =>
    simp [isSubstrOf, List.isPrefixOf_iff_prefix, ih, List.infix_cons_iff]

/-- Model of Python's `str.lower` on a single character (ASCII range; all
characters the claims exercise are ASCII letters or CJK characters, and CJK
characters are fixed points of `str.lower`). -/
def lowerChar (c : Char) : Char :=
  if 'A' ≤ c && c ≤ 'Z' then Char.ofNat (c.toNat + 32) else c

/-- Model of Python's `str.lower` on a whole string. -/
def lowerStr (s : Str) : Str := s.map lowerChar

/-- Model of Python's `str.strip()`: drop leading and trailing whitespace. -/
def stripStr (s : Str) : Str :=
  ((s.dropWhile isSpc).reverse.dropWhile isSpc).reverse

/-! ## Python runtime errors

The retry loops in `kit_address_check/src/kit_address_check.py` and
`rule_query/src/rule_query.py` can raise Python runtime errors beyond the
`requests` exceptions they try to handle; `PyError` models them. -/

/-- A Python exception escaping one of the embedded functions. -/
inductive PyError where
  /-- `NameError`: an unbound name was evaluated (carries the name). -/
  | nameError (name : Str)
  /-- A re-raised `requests.exceptions.RequestException` (transport failure). -/
  | requestException (msg : Str)
deriving DecidableEq

/-- A generic `for i in range(...)` loop whose body either exits the loop
(`Sum.inl` with a return value or an exception) or falls through to the next
iteration (`Sum.inr ()`).  Falling off the end of the loop returns Python's
implicit `None` (`Except.ok none`).  The first `Nat` is the remaining
iteration count, the second the current loop index. -/
def pyForRange {β : Type} (body : Nat → (Except PyError (Option β)) ⊕ Unit) :
    Nat → Nat → Except PyError (Option β)
  | 0, _ => .ok none
  | fuel + 1, i =>
    match body i with
    | .inl r => r
    | .inr () => pyForRange body fuel (i + 1)

/-! ## `rule_query/src/mcp_rule_query_server.py` — RuleQueryService -/

/-- An order-status response as assembled by
`RuleQueryService.fetch_order_status`: `{"status_code": ..., "body": ...}`,
with the body modelled as the JSON object (a key/value list). -/
structure OrderStatusResp where
  status_code : Nat
  body : List (Str × Str)
deriving DecidableEq

/-- Embedding of `RuleQueryService.should_include_rule`
(`mcp_rule_query_server.py`, lines 89–108).  Python's
`order_info.get('status', '').lower()` is the looked-up status (or `""`),
lower-cased; `'cancel' in rule_key_lower` is a substring test; the final
`return True` is the catch-all `# 默认包含所有规则` line. -/
def should_include_rule (rule_key : Str) (_rule_value : Str)
    (order_info : List (Str × Str)) : Bool :=
  if order_info.isEmpty then true
  else
    let order_status := lowerStr ((order_info.lookup "status".toList).getD [])
    let rule_key_lower := lowerStr rule_key
    if isSubstrOf "cancel".toList rule_key_lower &&
        (order_status = "pending".toList || order_status = "confirmed".toList) then true
    else if isSubstrOf "modify".toList rule_key_lower &&
        order_status = "pending".toList then true
    else if isSubstrOf "query".toList rule_key_lower then true
    else true

/-- The JSON value `RuleQueryService.filter_rules` serializes:
either `{"规则": "未找到匹配的规则"}` (empty rule set) or
`{"规则": {...}}` with the filtered key/value mapping. -/
inductive FilterOutput where
  | noRules
  | ruleSet (rules : List (Str × Str))
deriving DecidableEq

/-- Embedding of `RuleQueryService.filter_rules`
(`mcp_rule_query_server.py`, lines 68–87): keep exactly the entries for which
`should_include_rule` holds, reading the order body from the status
response. -/
def filter_rules (rules : List (Str × Str)) (order_status : OrderStatusResp) :
    FilterOutput :=
  if rules.isEmpty then .noRules
  else .ruleSet (rules.filter fun kv => should_include_rule kv.1 kv.2 order_status.body)

/-- The result dictionary of `RuleQueryService.rule_query_workflow`:
`{"text": ...}`, `{"error": "Failed to get matched rules"}`, or
`{"result": "order_id is not exist, please check"}`. -/
inductive RQResult where
  | text (filtered : FilterOutput)
  | rulesError
  | notExist (msg : Str)
deriving DecidableEq

/-- The literal terminal message of the order-absent branch. -/
def notExistMsg : Str := "order_id is not exist, please check".toList

/-- Embedding of `RuleQueryService.rule_query_workflow`
(`mcp_rule_query_server.py`, lines 110–145).  The order-status response and
the rule fetch's result are passed in (the rule fetch returns `{}` — the
empty list — on a non-200 response or an exception).  The second component
records whether `fetch_matched_rules` was invoked. -/
def rule_query_workflow (order_status : OrderStatusResp)
    (matched_rules : List (Str × Str)) : RQResult × Bool :=
  if order_status.status_code = 200 then
    if matched_rules.isEmpty then (.rulesError, true)
    else (.text (filter_rules matched_rules order_status), true)
  else (.notExist notExistMsg, false)

/-! ## `rule_query/src/rule_query.py` — query_rule and its retry loops -/

/-- The outcome of one `requests.get` call against the order-status or
purpose endpoint: either an HTTP response was received (any status code) or a
transport-level failure (`requests.exceptions.RequestException`) occurred. -/
inductive AttemptOutcome where
  | response (status_code : Nat) (body : Str)
  | transportError (msg : Str)

/-- The response dictionary built by `get_order_status` / `get_matched_rule`:
`{"status_code": ..., "body": ...}` (headers are dropped; the body is the
response text or serialized JSON). -/
structure StatusResp where
  status_code : Nat
  body : Str
deriving DecidableEq

/-- One iteration of the `for attempt in range(3)` loop shared by
`get_order_status` and `get_matched_rule` (`rule_query.py`, lines 54–71 and
84–101).  If a response is received it is returned as-is.  In the
`except requests.exceptions.RequestException` handler, `if attempt == 2`
re-raises the transport error; otherwise the handler executes
`time.sleep(0.1)` — but `time` is never imported in `rule_query.py`, so a
`NameError` is raised instead of sleeping and escapes the handler. -/
def gosBody (att : Nat → AttemptOutcome) (attempt : Nat) :
    (Except PyError (Option StatusResp)) ⊕ Unit :=
  match att attempt with
  | .response c b => .inl (.ok (some ⟨c, b⟩))
  | .transportError m =>
    if attempt = 2 then .inl (.error (.requestException m))
    else .inl (.error (.nameError "time".toList))

/-- Embedding of `get_order_status` (`rule_query.py`, lines 42–71). -/
def get_order_status (att : Nat → AttemptOutcome) :
    Except PyError (Option StatusResp) :=
  pyForRange (gosBody att) 3 0

/-- Embedding of `get_matched_rule` (`rule_query.py`, lines 73–101); its loop
body is textually identical to `get_order_status`'s, against the purpose
endpoint. -/
def get_matched_rule (att : Nat → AttemptOutcome) :
    Except PyError (Option StatusResp) :=
  pyForRange (gosBody att) 3 0

/-- The result dictionary of `query_rule`: the filtered rule on success,
`{"success": False, "result": "order_id is not exist, please check",
"order_status": ...}` when the order does not exist, or the generic
`except Exception` error dictionary. -/
inductive QRResult where
  | ok (filtered : Str)
  | notExist (msg : Str) (order_status : StatusResp)
  | errorResult (e : PyError)
deriving DecidableEq

/-- Embedding of `query_rule` (`rule_query.py`, lines 104–146).  `att` and
`ruleAtt` are the attempt oracles of the order-status and purpose endpoints;
`fil` abstracts `filter_rule_with_llm` (an LLM call whose output is returned
verbatim).  Any Python exception from the fetches lands in the outer
`except Exception` and becomes an error dictionary.  The `.ok none` case
(both loops always exit early, so it is unreachable) would subscript `None`
and likewise land in the outer handler.  The second component records whether
`get_matched_rule` was invoked. -/
def query_rule (att ruleAtt : Nat → AttemptOutcome) (fil : Str → Str → Str) :
    QRResult × Bool :=
  match get_order_status att with
  | .error e => (.errorResult e, false)
  | .ok none => (.errorResult (.nameError "NoneType".toList), false)
  | .ok (some osr) =>
    if osr.status_code = 200 then
      match get_matched_rule ruleAtt with
      | .error e => (.errorResult e, true)
      | .ok none => (.errorResult (.nameError "NoneType".toList), true)
      | .ok (some rr) => (.ok (fil rr.body osr.body), true)
    else (.notExist notExistMsg osr, false)

/-! ## `kit_address_check/src/kit_address_check.py` -/

/-- The body of an address-check response: `response.json()` when the
content type is JSON (a JSON object, modelled as a key/value list) or the
raw `response.text` otherwise. -/
inductive AddrData where
  | obj (fields : List (Str × Str))
  | str (s : Str)
deriving DecidableEq

/-- Python's `isinstance(data, dict)` on an `AddrData`. -/
def AddrData.isDict : AddrData → Bool
  | .obj _ => true
  | .str _ => false

/-- The outcome of one `requests.get` call against the address-check
endpoint. -/
inductive AddrAttempt where
  | response (status_code : Nat) (body : AddrData)
  | transportError (msg : Str)

/-- The response dictionary built by `get_original_address`:
`{"status_code": ..., "body": ..., "success": status_code == 200}`. -/
structure AddrResp where
  status_code : Nat
  body : AddrData
  success : Bool
deriving DecidableEq

/-- One iteration of the `for attempt in range(max_retries)` loop of
`get_original_address` (`kit_address_check.py`, lines 42–62).  A received
response is returned as-is with `success = (status_code == 200)`.  In the
`except requests.exceptions.RequestException` handler the code evaluates
`self.max_retries` — but `get_original_address` is a module-level function
with no `self` in scope, so a `NameError` is raised and escapes the handler
before any sleep or further attempt can happen. -/
def goaBody (att : Nat → AddrAttempt) (attempt : Nat) :
    (Except PyError (Option AddrResp)) ⊕ Unit :=
  match att attempt with
  | .response c b => .inl (.ok (some ⟨c, b, c = 200⟩))
  | .transportError _ => .inl (.error (.nameError "self".toList))

/-- Embedding of `get_original_address` (`kit_address_check.py`, lines
30–62); `max_retries = 3`. -/
def get_original_address (att : Nat → AddrAttempt) :
    Except PyError (Option AddrResp) :=
  pyForRange (goaBody att) 3 0

/-- Python's `addr.replace(" ", "").lower()` — the cleaning step of
`_addresses_are_similar`. -/
def cleanAddr (a : Str) : Str := lowerStr (a.filter fun c => !(c = ' '))

/-- Embedding of `_addresses_are_similar` (`kit_address_check.py`, lines
183–190): clean both strings, then test equality or substring containment in
either direction. -/
def addresses_are_similar (addr1 addr2 : Str) : Bool :=
  let addr1_clean := cleanAddr addr1
  let addr2_clean := cleanAddr addr2
  addr1_clean = addr2_clean || isSubstrOf addr1_clean addr2_clean ||
    isSubstrOf addr2_clean addr1_clean

/-- The ordered field-name probe list of `_extract_address_from_data`. -/
def possibleFields : List Str :=
  ["address".toList, "shipping_address".toList, "delivery_address".toList,
   "addr".toList, "location".toList]

/-- A double-quoted JSON string (no escaping needed for the claims'
inputs). -/
def quoteStr (s : Str) : Str := '"' :: s ++ ['"']

/-- `json.dumps(data, ensure_ascii=False)` on a flat string-valued object —
the degraded serialization `_extract_address_from_data` falls back to. -/
def jsonDumpsObj (fs : List (Str × Str)) : Str :=
  let items := fs.map fun kv => quoteStr kv.1 ++ ": ".toList ++ quoteStr kv.2
  ['\x7b'] ++ List.intercalate ", ".toList items ++ ['\x7d']

/-- Embedding of `_extract_address_from_data` (`kit_address_check.py`, lines
171–181): return the value of the first present field from `possibleFields`,
else serialize the whole object. -/
def extract_address_from_data (fs : List (Str × Str)) : Str :=
  match possibleFields.findSome? (fun f => fs.lookup f) with
  | some v => v
  | none => jsonDumpsObj fs

/-- The fixed "unchanged" sentence of the address-comparison wire
contract. -/
def unchangedSentence : Str := "待更改地址与原地址相同，无需更改".toList

/-- The fixed "changed" sentence of the address-comparison wire contract. -/
def changedSentence : Str := "地址更新，将尝试拦截订单，并转人工客服处理".toList

/-- The fence opener `response_content.strip().startswith('```json')` tests
for. -/
def fenceOpen : Str := "```json".toList

/-- The fence closer `cleaned_content.endswith('```')` tests for. -/
def fenceClose : Str := "```".toList

/-- The response-normalization steps shared verbatim by
`extract_tasks_with_deepseek` (`data_preprocess/src/server.py`, lines
219–225) and `compare_addresses_with_llm` (`kit_address_check.py`, lines
114–119): strip, drop a leading `` ```json `` (7 characters), drop a
trailing `` ``` `` (3 characters), strip again. -/
def cleanResponse (s : Str) : Str :=
  let c := stripStr s
  let c := if fenceOpen.isPrefixOf c then c.drop 7 else c
  let c := if fenceClose.isSuffixOf c then c.take (c.length - 3) else c
  stripStr c

/-- Embedding of `compare_addresses_with_llm` (`kit_address_check.py`, lines
64–123).  `response_content` is the DeepSeek helper's return value (`none`
on API failure).  `parse` models `json.loads` on the cleaned content:
`none` means `json.loads` raises `json.JSONDecodeError`, which this function
does not catch, modelled as `Except.error` carrying the raw response.  When
the service failed and the payload is a dict, the deterministic comparison
runs; when the service failed and the payload is not a dict, control falls
through to the final `return` of the "changed" sentence. -/
def compare_addresses_with_llm (parse : Str → Option Str)
    (response_content : Option Str) (original_address_data : AddrData)
    (input_address : Str) : Except Str Str :=
  match response_content with
  | none =>
    match original_address_data with
    | .obj fs =>
      let original_address := extract_address_from_data fs
      if addresses_are_similar original_address input_address then
        .ok unchangedSentence
      else
        .ok changedSentence
    | _ => .ok changedSentence
  | some rc =>
    match parse (cleanResponse rc) with
    | some result => .ok result
    | none => .error rc

/-- The outcome of `check_address`: the comparison result returned directly,
the non-200 failure dictionary (`"无法获取原地址信息，请检查订单ID"`), or
the outer `except Exception` dictionary
(`"地址检查过程中发生错误，请稍后重试"`). -/
inductive CheckOutcome where
  | comparison (result : Str)
  | fetchFailed (status_code : Nat)
  | internalError
deriving DecidableEq

/-- Embedding of `check_address` (`kit_address_check.py`, lines 192–240):
fetch the address on file (any Python exception lands in the outer handler),
reject non-200 responses, otherwise return the comparison result; an
uncaught `json.JSONDecodeError` from the comparison also lands in the outer
handler. -/
def check_address (att : Nat → AddrAttempt) (parse : Str → Option Str)
    (response_content : Option Str) (input_address : Str) : CheckOutcome :=
  match get_original_address att with
  | .error _ => .internalError
  | .ok none => .internalError
  | .ok (some r) =>
    if !r.success then .fetchFailed r.status_code
    else
      match compare_addresses_with_llm parse response_content r.body input_address with
      | .ok s => .comparison s
      | .error _ => .internalError

/-! ## `data_preprocess/src/server.py` — simulate_llm_response

The deterministic fallback extractor (identical in
`data_preprocess/src/server.py`, lines 89–147, and
`data_preprocess/src/data_preprocess.py`, lines 256–326).

The three order-id regexes are embedded as scanners with `re.findall`
semantics: scan left to right, at each position attempt a match; on success
emit the capture group and continue after the match (non-overlapping), on
failure advance one character.  Greedy quantifiers are maximal-munch here
because in each pattern the element following a starred class can never
match a character of that class. -/

/-- The tail `\s*[：:]\s*([A-Za-z0-9]+)` of the first pattern
`订单号?\s*[：:]\s*([A-Za-z0-9]+)`, returning the capture group and the rest
of the input after the match. -/
def matchPat1Tail (l : Str) : Option (Str × Str) :=
  match l.dropWhile isSpc with
  | [] => none
  | c :: r =>
    if c = '：' || c = ':' then
      let r1 := r.dropWhile isSpc
      let cap := r1.takeWhile isAlnum
      if cap.isEmpty then none else some (cap, r1.drop cap.length)
    else none

/-- One match attempt of the first pattern `订单号?\s*[：:]\s*([A-Za-z0-9]+)`
at the head of the input; `号?` is greedy, so the variant consuming `号` is
tried first. -/
def matchPat1 : Str → Option (Str × Str)
  | '订' :: '单' :: rest =>
    (match rest with
     | '号' :: r => matchPat1Tail r
     | _ => none).orElse fun _ => matchPat1Tail rest
  | _ => none

/-- One match attempt of the second pattern `订单\s*([A-Za-z0-9]+)` at the
head of the input. -/
def matchPat2 : Str → Option (Str × Str)
  | '订' :: '单' :: rest =>
    let r1 := rest.dropWhile isSpc
    let cap := r1.takeWhile isAlnum
    if cap.isEmpty then none else some (cap, r1.drop cap.length)
  | _ => none

/-- One match attempt of the third pattern `([A-Za-z0-9]{10,})` at the head
of the input: the maximal alphanumeric run from here, if it has at least 10
characters. -/
def matchPat3 (l : Str) : Option (Str × Str) :=
  let cap := l.takeWhile isAlnum
  if 10 ≤ cap.length then some (cap, l.drop cap.length) else none

/-- `re.findall` driver: left-to-right, non-overlapping scan.  The fuel is
always `l.length + 1`, enough to visit every position (each step consumes at
least one character, every matcher's capture being nonempty). -/
def findAllAux (m : Str → Option (Str × Str)) : Nat → Str → List Str
  | 0, _ => []
  | _ + 1, [] =>
    match m [] with
    | some (cap, _) => [cap]
    | none => []
  | fuel + 1, c :: cs =>
    match m (c :: cs) with
    | some (cap, rest) => cap :: findAllAux m fuel rest
    | none => findAllAux m fuel cs

/-- `re.findall(pattern, input_query)` for one of the three patterns. -/
def findAll (m : Str → Option (Str × Str)) (l : Str) : List Str :=
  findAllAux m (l.length + 1) l

/-- The accumulated matches of all three patterns, de-duplicated
(`order_ids = list(set(order_ids))`; Python's set ordering is unspecified,
modelled here as first-occurrence de-duplication). -/
def orderIdsOf (q : Str) : List Str :=
  (findAll matchPat1 q ++ findAll matchPat2 q ++ findAll matchPat3 q).eraseDups

/-- `any(word in input_query for word in ws)`. -/
def containsAnyOf (q : Str) (ws : List Str) : Bool :=
  ws.any fun w => isSubstrOf w q

/-- The `['查询', '查看', '状态']` keyword family. -/
def queryFamilyHit (q : Str) : Bool :=
  containsAnyOf q ["查询".toList, "查看".toList, "状态".toList]

/-- The `['取消', '退订']` keyword family. -/
def cancelFamilyHit (q : Str) : Bool :=
  containsAnyOf q ["取消".toList, "退订".toList]

/-- The `['修改', '更改']` keyword family. -/
def modifyFamilyHit (q : Str) : Bool :=
  containsAnyOf q ["修改".toList, "更改".toList]

/-- The purpose `查询订单状态` ("query order status"). -/
def queryPurpose : Str := "查询订单状态".toList

/-- The purpose `取消订单` ("cancel order"). -/
def cancelPurpose : Str := "取消订单".toList

/-- The purpose `修改订单` ("modify order"). -/
def modifyPurpose : Str := "修改订单".toList

/-- The purposes appended by the three keyword-family checks, before the
default is applied: each family contributes its purpose once if any of its
keywords occurs in the query. -/
def purposesMatched (q : Str) : List Str :=
  (if queryFamilyHit q then [queryPurpose] else []) ++
  (if cancelFamilyHit q then [cancelPurpose] else []) ++
  (if modifyFamilyHit q then [modifyPurpose] else [])

/-- The final purpose list: the matched purposes, or the default
`['查询订单状态']` when no family matched. -/
def purposesOf (q : Str) : List Str :=
  if (purposesMatched q).isEmpty then [queryPurpose] else purposesMatched q

/-- `task_count = max(len(order_ids), len(purposes))`. -/
def taskCount (q : Str) : Nat :=
  max (orderIdsOf q).length (purposesOf q).length

/-- `xs[i] if i < len(xs) else xs[-1]` — the saturating index used for the
numbered task slots (the out-of-range default `[]` is never reached when the
list is nonempty). -/
def satIdx (l : List Str) (i : Nat) : Str :=
  if i < l.length then l.getD i [] else l.getLastD []

/-- The numbered task slots `task_1 .. task_k`: slot `i+1` holds
`order_id_{i+1}` and `purpose_{i+1}` picked by the saturating index. -/
def mkSlots (ids ps : List Str) (k : Nat) : List (Str × Str) :=
  (List.range k).map fun i => (satIdx ids i, satIdx ps i)

/-- The shape of a fallback extraction result:
`{"valid_question": "no"}` (and nothing else), the single-task shape
`{"valid_question": "yes", "multi-task": "no", "task_count": 1, "tasks":
{...}}`, or the multi-task shape with numbered slots. -/
inductive ExtractionResult where
  | invalid
  | single (order_id : Str) (purpose : Str)
  | multi (task_count : Nat) (slots : List (Str × Str))
deriving DecidableEq

/-- The `"multi-task"` field of a result (`none` when absent: the invalid
shape carries no such field). -/
def ExtractionResult.multiTaskField : ExtractionResult → Option Bool
  | .invalid => none
  | .single _ _ => some false
  | .multi _ _ => some true

/-- The `"task_count"` field of a result (`none` when absent). -/
def ExtractionResult.taskCountField : ExtractionResult → Option Nat
  | .invalid => none
  | .single _ _ => some 1
  | .multi k _ => some k

/-- Embedding of `simulate_llm_response` (`data_preprocess/src/server.py`,
lines 89–147; identical in `data_preprocess.py`, lines 256–326): extract and
de-duplicate order ids, gate on emptiness, match keyword families (with
default), and emit the single- or multi-task shape. -/
def simulate_llm_response (q : Str) : ExtractionResult :=
  if (orderIdsOf q).isEmpty then .invalid
  else if taskCount q = 1 then
    .single ((orderIdsOf q).headD "unknown".toList) ((purposesOf q).getD 0 [])
  else
    .multi (taskCount q) (mkSlots (orderIdsOf q) (purposesOf q) (taskCount q))

/-- Embedding of `extract_tasks_with_deepseek`
(`data_preprocess/src/server.py`, lines 149–234).  `response_content` is the
DeepSeek helper's return value (`none` on API failure) and `parse` models
`json.loads` on the cleaned content (`none` exactly when it would raise
`json.JSONDecodeError`).  `Sum.inl` is the parsed model answer returned
verbatim; `Sum.inr` is the deterministic fallback. -/
def extract_tasks_with_deepseek {α : Type} (parse : Str → Option α)
    (response_content : Option Str) (input_query : Str) :
    α ⊕ ExtractionResult :=
  match response_content with
  | none => .inr (simulate_llm_response input_query)
  | some rc =>
    match parse (cleanResponse rc) with
    | some j => .inl j
    | none => .inr (simulate_llm_response input_query)

/-! ## Shared helper lemmas -/

/-- Reading slot `i` of the numbered task slots gives the saturating-index
pick for both fields. -/
theorem mkSlots_getD (ids ps : List Str) (k i : Nat) (h : i < k) :
    (mkSlots ids ps k).getD i ([], []) = (satIdx ids i, satIdx ps i) := by
  simp [mkSlots, List.getD, List.getElem?_map, List.getElem?_range, h]

/-- `should_include_rule` is the constant `true`: every branch of the
`if`/`elif` chain, including the final catch-all, returns `True`. -/
theorem should_include_rule_eq_true (rule_key rule_value : Str)
    (order_info : List (Str × Str)) :
    should_include_rule rule_key rule_value order_info = true := by
  simp [should_include_rule]

/-! ## Claims -/

/-- C1, counterexample: the rule key `"cancel_rule"` contains `"cancel"` and
the order status is `"shipped"` — neither `"pending"` nor `"confirmed"` —
yet the deterministic fallback filter includes the rule (the claimed
cancel-family restriction does not hold). -/
theorem c1_cancel_included_despite_shipped :
    should_include_rule "cancel_rule".toList "v".toList
      [("status".toList, "shipped".toList)] = true ∧
    filter_rules [("cancel_rule".toList, "v".toList)]
      ⟨200, [("status".toList, "shipped".toList)]⟩ =
      .ruleSet [("cancel_rule".toList, "v".toList)] ∧
    "shipped".toList ≠ "pending".toList ∧
    "shipped".toList ≠ "confirmed".toList := by
  refine ⟨rfl, rfl, by decide, by decide⟩

/-- C1, amended: the deterministic rule-filter fallback includes every rule
for every order status — the cancel/modify/query branches only ever confirm
the permissive default (`should_include_rule` ends in `return True`), so the
`FilteredRuleSet` always equals the whole fetched `RuleSet`. -/
theorem c1_fallback_filter_includes_every_rule (rule_key rule_value : Str)
    (order_info : List (Str × Str)) (rules : List (Str × Str))
    (os : OrderStatusResp) :
    should_include_rule rule_key rule_value order_info = true ∧
    filter_rules rules os = (if rules.isEmpty then .noRules else .ruleSet rules) := by
  refine ⟨should_include_rule_eq_true _ _ _, ?_⟩
  unfold filter_rules
  split
  · rfl
  · rw [List.filter_eq_self.mpr fun kv _ => should_include_rule_eq_true _ _ _]

/-- C2: when the order-status lookup returns any HTTP status code other than
200, both rule resolvers return the literal terminal
`"order_id is not exist, please check"` and never invoke the rule fetch (the
`Bool` component instruments whether the rule endpoint was called). -/
theorem c2_order_existence_gate (os : OrderStatusResp)
    (rules : List (Str × Str)) (att ruleAtt : Nat → AttemptOutcome)
    (fil : Str → Str → Str) (osr : StatusResp)
    (hos : os.status_code ≠ 200)
    (hatt : get_order_status att = .ok (some osr))
    (hosr : osr.status_code ≠ 200) :
    rule_query_workflow os rules = (.notExist notExistMsg, false) ∧
    query_rule att ruleAtt fil = (.notExist notExistMsg osr, false) := by
  constructor
  · simp [rule_query_workflow, hos]
  · simp [query_rule, hatt, hosr]

/-- C2, witness: a 404 order-status response routes both resolvers to the
terminal message with no rule fetch. -/
theorem c2_order_existence_gate_witness :
    rule_query_workflow ⟨404, []⟩ [] = (.notExist notExistMsg, false) ∧
    query_rule (fun _ => .response 404 []) (fun _ => .response 200 [])
      (fun _ _ => []) = (.notExist notExistMsg ⟨404, []⟩, false) :=
  c2_order_existence_gate ⟨404, []⟩ [] (fun _ => .response 404 [])
    (fun _ => .response 200 []) (fun _ _ => []) ⟨404, []⟩ (by decide) rfl
    (by decide)

/-- C3: the claimed retry policy (3 attempts, 100 ms backoff, retry on
transport failures) is not what the code does.  A transport failure on the
very first attempt makes `get_original_address` raise
`NameError` (`self` is unbound in the module-level function) and
`get_order_status` raise `NameError` (`time` is never imported), so both
fail outward after a single attempt with no backoff and no retry.  A
received HTTP response — here a 500 — is indeed returned as-is from the
attempt that produced it. -/
theorem c3_first_transport_failure_is_fatal (aatt ratt : Nat → AddrAttempt)
    (satt : Nat → AttemptOutcome) (m1 m2 : Str) (b : AddrData)
    (h1 : aatt 0 = .transportError m1) (h2 : satt 0 = .transportError m2)
    (h3 : ratt 0 = .response 500 b) :
    get_original_address aatt = .error (.nameError "self".toList) ∧
    get_order_status satt = .error (.nameError "time".toList) ∧
    get_original_address ratt = .ok (some ⟨500, b, false⟩) := by
  refine ⟨?_, ?_, ?_⟩
  · simp [get_original_address, pyForRange, goaBody, h1]
  · simp [get_order_status, pyForRange, gosBody, h2]
  · simp [get_original_address, pyForRange, goaBody, h3]

/-- C3, witness: a connection-refused failure on the first attempt. -/
theorem c3_first_transport_failure_is_fatal_witness :
    get_original_address (fun _ => .transportError "connection refused".toList) =
      .error (.nameError "self".toList) ∧
    get_order_status (fun _ => .transportError "connection refused".toList) =
      .error (.nameError "time".toList) ∧
    get_original_address (fun _ => .response 500 (.str "err".toList)) =
      .ok (some ⟨500, .str "err".toList, false⟩) :=
  c3_first_transport_failure_is_fatal _ _ _
    "connection refused".toList "connection refused".toList
    (.str "err".toList) rfl rfl rfl

/-- C4: whenever the deterministic fallback extracts no order id by any of
its three patterns, `simulate_llm_response` returns exactly the invalid
shape `{"valid_question": "no"}` — which carries no other field — no matter
which intent keywords appear in the query. -/
theorem c4_no_order_id_means_invalid (q : Str) (h : orderIdsOf q = []) :
    simulate_llm_response q = .invalid := by
  simp [simulate_llm_response, h]

/-- C4, witness: a query containing intent keywords (`查询`, `状态`) but no
extractable order id. -/
theorem c4_no_order_id_means_invalid_witness :
    orderIdsOf "查询状态".toList = [] ∧
    queryFamilyHit "查询状态".toList = true ∧
    simulate_llm_response "查询状态".toList = .invalid :=
  ⟨by decide, by decide, c4_no_order_id_means_invalid _ (by decide)⟩

/-- C5: the saturating-index law.  For a fallback result with
`task_count = k` built from `m` distinct order ids with `m ≤ i < k`, the
numbered slot `i+1` carries the last order id (`order_ids[-1]`, i.e. index
`m-1`), and symmetrically a slot index at or beyond the purpose-list length
carries the last purpose. -/
theorem c5_saturating_index (q : Str) (i j : Nat)
    (hne : orderIdsOf q ≠ [])
    (hi : (orderIdsOf q).length ≤ i) (hik : i < taskCount q) :
    1 < taskCount q ∧
    simulate_llm_response q =
      .multi (taskCount q) (mkSlots (orderIdsOf q) (purposesOf q) (taskCount q)) ∧
    ((mkSlots (orderIdsOf q) (purposesOf q) (taskCount q)).getD i ([], [])).1 =
      (orderIdsOf q).getLastD [] ∧
    ((purposesOf q).length ≤ j → j < taskCount q →
      ((mkSlots (orderIdsOf q) (purposesOf q) (taskCount q)).getD j ([], [])).2 =
        (purposesOf q).getLastD []) := by
  have hm : 0 < (orderIdsOf q).length := List.length_pos.mpr hne
  have hk : 1 < taskCount q := by omega
  have hE : (orderIdsOf q).isEmpty = false := by
    simpa [List.isEmpty_iff] using hne
  have hk1 : ¬ taskCount q = 1 := by omega
  refine ⟨hk, ?_, ?_, ?_⟩
  · simp [simulate_llm_response, hE, hk1]
  · rw [mkSlots_getD _ _ _ _ hik]
    simp [satIdx, Nat.not_lt.mpr hi]
  · intro hj hjk
    rw [mkSlots_getD _ _ _ _ hjk]
    simp [satIdx, Nat.not_lt.mpr hj]

/-- C5, witness: `"查询 取消 订单:A1"` yields one order id (`A1`) and two
purposes, so `task_count = 2` and slot 2 reuses the last (= only) order
id. -/
theorem c5_saturating_index_witness :
    1 < taskCount "查询 取消 订单:A1".toList ∧
    simulate_llm_response "查询 取消 订单:A1".toList =
      .multi (taskCount "查询 取消 订单:A1".toList)
        (mkSlots (orderIdsOf "查询 取消 订单:A1".toList)
          (purposesOf "查询 取消 订单:A1".toList)
          (taskCount "查询 取消 订单:A1".toList)) ∧
    ((mkSlots (orderIdsOf "查询 取消 订单:A1".toList)
        (purposesOf "查询 取消 订单:A1".toList)
        (taskCount "查询 取消 订单:A1".toList)).getD 1 ([], [])).1 =
      (orderIdsOf "查询 取消 订单:A1".toList).getLastD [] ∧
    ((purposesOf "查询 取消 订单:A1".toList).length ≤ 2 →
      2 < taskCount "查询 取消 订单:A1".toList →
      ((mkSlots (orderIdsOf "查询 取消 订单:A1".toList)
          (purposesOf "查询 取消 订单:A1".toList)
          (taskCount "查询 取消 订单:A1".toList)).getD 2 ([], [])).2 =
        (purposesOf "查询 取消 订单:A1".toList).getLastD []) :=
  c5_saturating_index "查询 取消 订单:A1".toList 1 2 (by decide) (by decide)
    (by decide)

/-- C6: for every fallback result with a nonempty order-id list,
`task_count = max(#order_ids, #matched_purposes)` (the default purpose does
not change the maximum, because at least one order id exists), the
`multi-task` field is `yes` exactly when `task_count > 1`, the single-task
`tasks` shape is emitted exactly when `task_count = 1`, and the numbered
slots exactly when `task_count > 1`. -/
theorem c6_task_count_and_shape (q : Str) (h : orderIdsOf q ≠ []) :
    taskCount q = max (orderIdsOf q).length (purposesMatched q).length ∧
    (simulate_llm_response q).taskCountField = some (taskCount q) ∧
    ((simulate_llm_response q).multiTaskField = some true ↔ 1 < taskCount q) ∧
    (taskCount q = 1 →
      simulate_llm_response q =
        .single ((orderIdsOf q).headD "unknown".toList) ((purposesOf q).getD 0 [])) ∧
    (1 < taskCount q →
      simulate_llm_response q =
        .multi (taskCount q) (mkSlots (orderIdsOf q) (purposesOf q) (taskCount q))) := by
  have hm : 0 < (orderIdsOf q).length := List.length_pos.mpr h
  have hE : (orderIdsOf q).isEmpty = false := by
    simpa [List.isEmpty_iff] using h
  have hmax : taskCount q = max (orderIdsOf q).length (purposesMatched q).length := by
    by_cases hp : (purposesMatched q).isEmpty
    · have h0 : (purposesMatched q).length = 0 := by
        simpa [List.isEmpty_iff, List.length_eq_zero] using hp
      have h1 : purposesOf q = [queryPurpose] := by simp [purposesOf, hp]
      rw [taskCount, h1, h0]
      simp
      omega
    · have h1 : purposesOf q = purposesMatched q := by simp [purposesOf, hp]
      rw [taskCount, h1]
  have hp1 : 0 < (purposesOf q).length := by
    by_cases hp : (purposesMatched q).isEmpty
    · simp [purposesOf, hp]
    · have heq : purposesOf q = purposesMatched q := by simp [purposesOf, hp]
      rw [heq, List.length_pos]
      simpa [List.isEmpty_iff] using hp
  have hcases : taskCount q = 1 ∨ 1 < taskCount q := by
    have : 0 < taskCount q := by rw [taskCount]; omega
    omega
  refine ⟨hmax, ?_, ?_, ?_, ?_⟩
  · rcases hcases with h1 | h1
    · simp [simulate_llm_response, hE, h1, ExtractionResult.taskCountField]
    · have hk1 : ¬ taskCount q = 1 := by omega
      simp [simulate_llm_response, hE, hk1, ExtractionResult.taskCountField]
  · rcases hcases with h1 | h1
    · simp [simulate_llm_response, hE, h1, ExtractionResult.multiTaskField]
    · have hk1 : ¬ taskCount q = 1 := by omega
      simp [simulate_llm_response, hE, hk1, ExtractionResult.multiTaskField, h1]
  · intro h1
    simp [simulate_llm_response, hE, h1]
  · intro h1
    have hk1 : ¬ taskCount q = 1 := by omega
    simp [simulate_llm_response, hE, hk1]

/-- C6, witness: `"查询 取消 订单:A1"` has one order id and two matched
purposes, so `task_count = 2 = max(1, 2)` and the multi-task shape is
emitted. -/
theorem c6_task_count_and_shape_witness :
    taskCount "查询 取消 订单:A1".toList =
      max (orderIdsOf "查询 取消 订单:A1".toList).length
        (purposesMatched "查询 取消 订单:A1".toList).length ∧
    (simulate_llm_response "查询 取消 订单:A1".toList).taskCountField =
      some (taskCount "查询 取消 订单:A1".toList) ∧
    ((simulate_llm_response "查询 取消 订单:A1".toList).multiTaskField = some true ↔
      1 < taskCount "查询 取消 订单:A1".toList) ∧
    (taskCount "查询 取消 订单:A1".toList = 1 →
      simulate_llm_response "查询 取消 订单:A1".toList =
        .single ((orderIdsOf "查询 取消 订单:A1".toList).headD "unknown".toList)
          ((purposesOf "查询 取消 订单:A1".toList).getD 0 [])) ∧
    (1 < taskCount "查询 取消 订单:A1".toList →
      simulate_llm_response "查询 取消 订单:A1".toList =
        .multi (taskCount "查询 取消 订单:A1".toList)
          (mkSlots (orderIdsOf "查询 取消 订单:A1".toList)
            (purposesOf "查询 取消 订单:A1".toList)
            (taskCount "查询 取消 订单:A1".toList))) :=
  c6_task_count_and_shape "查询 取消 订单:A1".toList (by decide)

/-- C7: a query with at least one order id but no keyword of any intent
family gets the single default purpose `查询订单状态` ("query order
status"); and for every query `r`, each family contributes its purpose at
most once, however many of its keywords match. -/
theorem c7_default_purpose_and_one_per_family (q r : Str)
    (_hne : orderIdsOf q ≠ [])
    (h1 : queryFamilyHit q = false) (h2 : cancelFamilyHit q = false)
    (h3 : modifyFamilyHit q = false) :
    purposesOf q = [queryPurpose] ∧
    (purposesOf r).count queryPurpose ≤ 1 ∧
    (purposesOf r).count cancelPurpose ≤ 1 ∧
    (purposesOf r).count modifyPurpose ≤ 1 := by
  refine ⟨by simp [purposesOf, purposesMatched, h1, h2, h3], ?_, ?_, ?_⟩ <;>
    cases hq : queryFamilyHit r <;> cases hc : cancelFamilyHit r <;>
      cases hm : modifyFamilyHit r <;>
      simp [purposesOf, purposesMatched, hq, hc, hm] <;> decide

/-- C7, witness: `"订单:A1"` has an order id and no intent keyword, so the
default purpose applies; the keyword-saturated query
`"查询查看状态取消退订修改更改"` still contributes each purpose once. -/
theorem c7_default_purpose_and_one_per_family_witness :
    purposesOf "订单:A1".toList = [queryPurpose] ∧
    (purposesOf "查询查看状态取消退订修改更改".toList).count queryPurpose ≤ 1 ∧
    (purposesOf "查询查看状态取消退订修改更改".toList).count cancelPurpose ≤ 1 ∧
    (purposesOf "查询查看状态取消退订修改更改".toList).count modifyPurpose ≤ 1 :=
  c7_default_purpose_and_one_per_family "订单:A1".toList
    "查询查看状态取消退订修改更改".toList (by decide) (by decide) (by decide)
    (by decide)

/-- C8: in the address-reconciliation fallback (service returned no
content), the comparison of the extracted address against the new address
reports "unchanged" if and only if, after removing spaces and lower-casing,
the two strings are equal or one is an infix of the other; both outcomes use
the two fixed wire-contract sentences; and the concrete scenario
`{"address": "123 Main St"}` vs `"123 main st"` reports unchanged. -/
theorem c8_fallback_comparison_loose_heuristic (parse : Str → Option Str)
    (a b : Str) (fs : List (Str × Str)) (input : Str) :
    (addresses_are_similar a b = true ↔
      (cleanAddr a = cleanAddr b ∨ cleanAddr a <:+: cleanAddr b ∨
        cleanAddr b <:+: cleanAddr a)) ∧
    compare_addresses_with_llm parse none (.obj fs) input =
      .ok (if addresses_are_similar (extract_address_from_data fs) input
        then unchangedSentence else changedSentence) ∧
    (compare_addresses_with_llm parse none (.obj [("address".toList, a)]) b =
        .ok unchangedSentence ↔ addresses_are_similar a b = true) ∧
    compare_addresses_with_llm parse none
      (.obj [("address".toList, "123 Main St".toList)]) "123 main st".toList =
      .ok unchangedSentence := by
  have hx : ∀ x : Str,
      extract_address_from_data [("address".toList, x)] = x := fun x => rfl
  have hsim : ∀ x y : Str, (addresses_are_similar x y = true ↔
      (cleanAddr x = cleanAddr y ∨ cleanAddr x <:+: cleanAddr y ∨
        cleanAddr y <:+: cleanAddr x)) := by
    intro x y
    simp [addresses_are_similar, isSubstrOf_iff, or_assoc]
  have hcmp : ∀ (fs' : List (Str × Str)) (inp : Str),
      compare_addresses_with_llm parse none (.obj fs') inp =
        .ok (if addresses_are_similar (extract_address_from_data fs') inp
          then unchangedSentence else changedSentence) := by
    intro fs' inp
    simp only [compare_addresses_with_llm]
    split <;> simp_all
  refine ⟨hsim a b, hcmp fs input, ?_, ?_⟩
  · rw [hcmp [("address".toList, a)] b, hx a]
    constructor
    · intro hok
      by_contra hs
      rw [if_neg (by simpa using hs)] at hok
      have : unchangedSentence = changedSentence := by
        simpa using hok.symm
      exact absurd this (by decide)
    · intro hs
      rw [if_pos hs]
  · rw [hcmp [("address".toList, "123 Main St".toList)] "123 main st".toList,
      hx "123 Main St".toList, if_pos (by decide)]

/-- C9, counterexample: in the address reconciler, a model response whose
cleaned text fails to parse as JSON (`json.loads` raises, modelled by the
parse function returning `none` on this text) is NOT routed to the
deterministic fallback: `compare_addresses_with_llm` propagates the
exception (`.error`), and through `check_address` the outer handler returns
the generic error dictionary rather than any comparison sentence — even
though the fallback comparison of the same data would report unchanged. -/
theorem c9_parse_failure_not_fallback_in_reconciler :
    compare_addresses_with_llm (fun _ => none) (some "回复".toList)
      (.obj [("address".toList, "x".toList)]) "x".toList =
      .error "回复".toList ∧
    check_address (fun _ => .response 200 (.obj [("address".toList, "x".toList)]))
      (fun _ => none) (some "回复".toList) "x".toList = .internalError ∧
    compare_addresses_with_llm (fun _ => none) none
      (.obj [("address".toList, "x".toList)]) "x".toList =
      .ok unchangedSentence :=
  ⟨rfl, rfl, rfl⟩

/-- C9, amended: normalization trims the text, strips a leading
`` ```json `` fence opener and a trailing `` ``` `` closer when present, and
parses the remainder; on parse failure nothing is silently coerced — the
task-extraction engine falls back to the deterministic extractor, while the
address reconciler instead lets the `json.loads` exception propagate to its
caller's error handler. -/
theorem c9_normalization_and_parse_failure_routing {α : Type}
    (parse : Str → Option α) (parseA : Str → Option Str) (rc q : Str)
    (data : AddrData) (input : Str)
    (h : parse (cleanResponse rc) = none)
    (hA : parseA (cleanResponse rc) = none) :
    extract_tasks_with_deepseek parse (some rc) q =
      .inr (simulate_llm_response q) ∧
    extract_tasks_with_deepseek parse none q =
      .inr (simulate_llm_response q) ∧
    compare_addresses_with_llm parseA (some rc) data input = .error rc ∧
    cleanResponse "```json\n\x7b\x7d\n```".toList = "\x7b\x7d".toList := by
  refine ⟨?_, rfl, ?_, by decide⟩
  · simp [extract_tasks_with_deepseek, h]
  · simp [compare_addresses_with_llm, hA]

/-- C9, witness: a parse function failing on the cleaned text `"回复"`. -/
theorem c9_normalization_and_parse_failure_routing_witness :
    extract_tasks_with_deepseek (fun _ => (none : Option Str))
      (some "回复".toList) "订单:A1".toList =
      .inr (simulate_llm_response "订单:A1".toList) ∧
    extract_tasks_with_deepseek (fun _ => (none : Option Str)) none
      "订单:A1".toList = .inr (simulate_llm_response "订单:A1".toList) ∧
    compare_addresses_with_llm (fun _ => none) (some "回复".toList)
      (.str "x".toList) "x".toList = .error "回复".toList ∧
    cleanResponse "```json\n\x7b\x7d\n```".toList = "\x7b\x7d".toList :=
  c9_normalization_and_parse_failure_routing (fun _ => (none : Option Str))
    (fun _ => none) "回复".toList "订单:A1".toList (.str "x".toList)
    "x".toList rfl rfl

/-- C10: when the text-understanding call yields no content and the fetched
address-on-file body is not a JSON object (e.g. a bare string), the
comparison returns the "changed" sentence for every new address — the
result does not depend on `input_address` at all, so no address extraction
or similarity comparison takes place — and `check_address` passes that
sentence through on a 200 response. -/
theorem c10_nondict_body_always_changed (parse : Str → Option Str)
    (data : AddrData) (input : Str) (hd : data.isDict = false) :
    compare_addresses_with_llm parse none data input = .ok changedSentence ∧
    check_address (fun _ => .response 200 data) parse none input =
      .comparison changedSentence := by
  have h1 : compare_addresses_with_llm parse none data input =
      .ok changedSentence := by
    cases data with
    | obj fs => simp [AddrData.isDict] at hd
    | str s => rfl
  refine ⟨h1, ?_⟩
  simp [check_address, get_original_address, pyForRange, goaBody, h1]

/-- C10, witness: a bare-string body. -/
theorem c10_nondict_body_always_changed_witness :
    compare_addresses_with_llm (fun _ => none) none
      (.str "南京西路888号".toList) "任意新地址".toList =
      .ok changedSentence ∧
    check_address (fun _ => .response 200 (.str "南京西路888号".toList))
      (fun _ => none) none "任意新地址".toList =
      .comparison changedSentence :=
  c10_nondict_body_always_changed (fun _ => none) (.str "南京西路888号".toList)
    "任意新地址".toList rfl
